import Mathlib

/-!
Verification of `whipper/command/basecommand.py` (the `BaseCommand` class)
and the task-runner boundary exercised by `morituri/test/test_common_encode.py`.

The Python code is shallowly embedded: dictionaries of keyword arguments
become a structure with the recognized keys plus a pass-through rest list,
`argparse` (a standard-library collaborator) is modelled by the behaviour
`BaseCommand.__init__` relies on, and abort points (`raise IOError`,
`sys.exit`) become explicit outcome constructors.
-/

set_option autoImplicit false

namespace Whipper

/-- A Python runtime value as it appears in option defaults and config
entries.  `null` stands for Python's `None`. -/
inductive Value where
  | null
  | vstr (s : String)
  | vint (n : Int)
  | vbool (b : Bool)
deriving Repr, DecidableEq

/-- A Python type object passed as the `type=` keyword of
`add_argument_and_config` (`int`, `float`, `bool`, `str`). -/
inductive PyType where
  | int
  | float
  | bool
  | str
deriving Repr, DecidableEq

/-- The keyword-argument dictionary received by
`BaseCommand.add_argument_and_config` (basecommand.py line 139).  The keys
the method reads (`section`, `default`, `dest`, `type`) are explicit
optional fields; every other keyword travels untouched in `rest`. -/
structure Kwargs where
  sectionKw : Option String
  defaultKw : Option Value
  destKw : Option String
  typeKw : Option PyType
  rest : List (String × String)
deriving Repr, DecidableEq

/-- The configuration store: maps (type-suffix, section, key) to the stored
value, or `none` when the config file has no entry. -/
def ConfigStore : Type := String → String → String → Option Value

/-- Modelled from the spec: `whipper.common.config.Config.getter_or_default`
is not under `src/`; spec section 6 gives its contract — `get(type_suffix,
section, key, default) -> value`, returning the code default unmodified
when no stored value exists. -/
def getter_or_default (store : ConfigStore) (typesuffix sec key : String)
    (default : Value) : Value :=
  match store typesuffix sec key with
  | some v => v
  | Option.none => default

/-- The registration-time error of `add_argument_and_config`: Python raises
`SyntaxError("parser requires a 'dest' argument")` (basecommand.py line 165). -/
inductive RegError where
  | destMissing
deriving Repr, DecidableEq

/-- The successful result of `add_argument_and_config`: the positional flag
strings and the keyword dictionary as forwarded to
`argparse.ArgumentParser.add_argument` (basecommand.py lines 179-184). -/
structure AddedArg where
  posArgs : List String
  forwarded : Kwargs
deriving Repr, DecidableEq

/-- The config section chosen by basecommand.py lines 140-150: the explicit
`section` keyword if passed, else the command's `config_section` class
attribute, else `"main"`. -/
def sectionFor (config_section : Option String) (kwargs : Kwargs) : String :=
  match kwargs.sectionKw with
  | some s => s
  | Option.none =>
    match config_section with
    | Option.none => "main"
    | some cs => cs

/-- The type-suffix chosen by basecommand.py lines 167-173: `"int"` and
`"float"` take the Python type's `__name__`; the empty string is the
fallback.  Modelled from the spec: source line 172 reads
`else if kwargs["type"] = bool:` which is not valid Python (an `elif` with
`==` was clearly intended); spec section 9 states the corrected contract —
a boolean type selects the `"boolean"` suffix — and that corrected branch
is what is embedded here. -/
def typesuffixFor (t : Option PyType) : String :=
  match t with
  | Option.none => ""
  | some PyType.int => "int"
  | some PyType.float => "float"
  | some PyType.bool => "boolean"
  | some PyType.str => ""

/-- `BaseCommand.add_argument_and_config` (basecommand.py lines 139-184).
Pops `section` and `default` from the keyword dictionary, requires `dest`,
computes the type-suffix, and registers the argument with
`default=self.config.getter_or_default(typesuffix, section, key, default)`
while forwarding the remaining positional and keyword arguments. -/
def add_argument_and_config (config_section : Option String)
    (store : ConfigStore) (args : List String) (kwargs : Kwargs) :
    Except RegError AddedArg :=
  let sec := sectionFor config_section kwargs
  let default := match kwargs.defaultKw with
    | some d => d
    | Option.none => Value.null
  match kwargs.destKw with
  | Option.none => Except.error RegError.destMissing
  | some key =>
    let typesuffix := typesuffixFor kwargs.typeKw
    Except.ok
      { posArgs := args
        forwarded :=
          { kwargs with
            sectionKw := Option.none
            defaultKw := some (getter_or_default store typesuffix sec key default) } }

/-- The value a single registered option takes from the command line:
`argparse` scans argv for the flag and uses the token after it; absent the
flag, the registered default applies.  Stdlib collaborator, modelled from
the behaviour `BaseCommand` relies on (spec section 4.2 step 5). -/
def cliLookup : List String → String → Option String
  | [], _ => Option.none
  | [_], _ => Option.none
  | a :: b :: restArgv, flag =>
    if a = flag then some b else cliLookup (b :: restArgv) flag

/-- The final value an option registered through `add_argument_and_config`
resolves to after `parse_args`: the CLI flag's value when the flag is on
argv, otherwise the effective default the registration handed to the
parser. -/
def resolvedOptionValue (config_section : Option String) (store : ConfigStore)
    (argv : List String) (flag : String) (args : List String)
    (kwargs : Kwargs) : Except RegError Value :=
  match add_argument_and_config config_section store args kwargs with
  | Except.error e => Except.error e
  | Except.ok reg =>
    Except.ok
      (match cliLookup argv flag with
       | some s => Value.vstr s
       | Option.none =>
         match reg.forwarded.defaultKw with
         | some d => d
         | Option.none => Value.null)

/-- The `argparse.Namespace` attributes `BaseCommand.__init__` reads and
writes: the chosen device path (set by the `-d or --device` option or its
default), the `remainder` catch-all positional, and all other option
destinations. -/
structure Options where
  device : Option String
  remainder : List String
  fields : List (String × Value)
deriving Repr, DecidableEq

/-- The class-level configuration of one `BaseCommand` subclass: whether it
requests the `-d or --device` option, and its `subcommands` registry (`none`
models the attribute being absent, `some names` the dict's keys). -/
structure NodeSpec where
  deviceOption : Bool
  subcommands : Option (List String)
deriving Repr, DecidableEq

/-- The external collaborators of `BaseCommand.__init__`:
`drive.getAllDevicePaths()`, `os.path.realpath` and `os.path.exists`. -/
structure Env where
  drives : List String
  realpath : String → String
  pathExists : String → Bool

/-- How `BaseCommand.__init__` aborts: the two `raise IOError(msg)` sites
(lines 76 and 91 of basecommand.py) and the two `sys.exit` sites (lines 98
and 102). -/
inductive InitStop where
  | noDrives
  | deviceNotFound (resolved : String)
  | helpExit
  | unknownSubcommand (tok : String)
deriving Repr, DecidableEq

/-- The observable signal of an abort: a process exit status or a raised
`IOError` with its message. -/
inductive AbortSignal where
  | exitCode (n : Nat)
  | ioError (msg : String)
deriving Repr, DecidableEq

/-- The signal each abort site produces, read off basecommand.py:
line 76 `raise IOError('No CD-DA drives found!')`, line 91
`raise IOError('CD-DA device %s not found!' % device)`, line 98
`sys.exit(0)`, line 102 `sys.exit(1)`. -/
def InitStop.signal : InitStop → AbortSignal
  | InitStop.noDrives => AbortSignal.ioError "No CD-DA drives found!"
  | InitStop.deviceNotFound p =>
    AbortSignal.ioError ("CD-DA device " ++ p ++ " not found!")
  | InitStop.helpExit => AbortSignal.exitCode 0
  | InitStop.unknownSubcommand _ => AbortSignal.exitCode 1

/-- How `BaseCommand.__init__` returns: aborted (with the namespace state at
the abort), finished as a leaf command, or finished by constructing the
child subcommand with `(remainder tail, prog_name + " " + chosen name,
the shared options namespace)` (basecommand.py lines 103-107). -/
inductive InitResult where
  | stop (s : InitStop) (opts : Options)
  | leaf (opts : Options)
  | child (name : String) (argv : List String) (prog : String) (opts : Options)
deriving Repr, DecidableEq

/-- The namespace after `parse_args` (line 83): the abstract parser
`parseArgs` models `argparse` filling the shared namespace; when the
command registered the device option and no `-d` flag set the attribute,
the registered default — the first enumerated drive (line 80) — applies. -/
def parsedOptions (node : NodeSpec) (env : Env)
    (parseArgs : List String → Options → Options)
    (argv : List String) (opts : Options) : Options :=
  let o0 := parseArgs argv opts
  if node.deviceOption && o0.device.isNone then
    { o0 with device := some (env.drives.headD "") }
  else o0

/-- Line 87: `self.options.device = os.path.realpath(self.options.device)`. -/
def resolvedDevice (env : Env) (o : Options) : String :=
  env.realpath (o.device.getD "")

/-- The namespace after the device post-processing of lines 85-87: the
device attribute is overwritten with its symlink-resolved path. -/
def finalOptions (node : NodeSpec) (env : Env)
    (parseArgs : List String → Options → Options)
    (argv : List String) (opts : Options) : Options :=
  let o1 := parsedOptions node env parseArgs argv opts
  if node.deviceOption then
    { o1 with device := some (resolvedDevice env o1) }
  else o1

/-- The subcommand dispatch of basecommand.py lines 95-107: an empty
remainder prints help and exits 0; an unregistered first token logs
critically and exits 1; otherwise the matching child is constructed with
the remainder tail, the extended program name and the same namespace. -/
def dispatch (node : NodeSpec) (o : Options) (prog_name : String) : InitResult :=
  match node.subcommands with
  | Option.none => InitResult.leaf o
  | some subs =>
    match o.remainder with
    | [] => InitResult.stop InitStop.helpExit o
    | tok :: tailArgs =>
      if tok ∈ subs then
        InitResult.child tok tailArgs (prog_name ++ " " ++ tok) o
      else InitResult.stop (InitStop.unknownSubcommand tok) o

/-- `BaseCommand.__init__` (basecommand.py lines 57-107), in source order:
the zero-drives check of lines 69-76 fires before `parse_args`; then the
namespace is parsed; then lines 85-91 resolve the device path and abort
when it does not exist; then lines 95-107 dispatch to a subcommand. -/
def initNode (node : NodeSpec) (env : Env)
    (parseArgs : List String → Options → Options)
    (argv : List String) (prog_name : String) (opts : Options) : InitResult :=
  if node.deviceOption && decide (env.drives = []) then
    InitResult.stop InitStop.noDrives opts
  else
    let o2 := finalOptions node env parseArgs argv opts
    if node.deviceOption && !env.pathExists (o2.device.getD "") then
      InitResult.stop (InitStop.deviceNotFound (o2.device.getD "")) o2
    else dispatch node o2 prog_name

/-- Whether the abort site calls `logger.critical` first: basecommand.py
lines 74, 90 and 100 do; the help path (line 97) prints help instead. -/
def InitStop.logsCritical : InitStop → Bool
  | InitStop.noDrives => true
  | InitStop.deviceNotFound _ => true
  | InitStop.helpExit => false
  | InitStop.unknownSubcommand _ => true

/-- Whether the abort site calls `self.parser.print_help()` first
(basecommand.py line 97). -/
def InitStop.printsHelp : InitStop → Bool
  | InitStop.helpExit => true
  | _ => false

/-- Modelled from the spec: `morituri.common.task` is not under `src/` —
only its test `morituri/test/test_common_encode.py` is.  Spec section 4.3:
a Task is an opaque unit of work with a terminal success/exception state
exposing the captured error. -/
structure Task (ε α : Type) where
  outcome : Except ε α

/-- Modelled from the spec: `task.TaskException` wraps the Task's captured
error in its `exception` field (spec sections 3 and 4.3; the test reads
`e.exception`). -/
structure TaskException (ε : Type) where
  exception : ε

/-- Modelled from the spec: `task.SyncRunner.run(task, verbose)` drives the
task to its terminal state, returns normally on success, and re-raises any
captured error wrapped in a `TaskException`; verbose only affects
diagnostic output (spec section 4.3). -/
def SyncRunner.run {ε α : Type} (t : Task ε α) (verbose : Bool) :
    Except (TaskException ε) α :=
  match t.outcome with
  | Except.ok a => Except.ok a
  | Except.error e => Except.error { exception := e }

/-! Concrete instances used by the witnesses, following the scenario of
spec section 8: an `encode` command with `--bitrate` (dest `bitrate`,
type int, code default 320) and a config file holding
`[encode] bitrate=192`. -/

def storeEx : ConfigStore := fun typesuffix sec key =>
  if typesuffix = "int" ∧ sec = "encode" ∧ key = "bitrate" then
    some (Value.vint 192)
  else Option.none

def kwargsEx : Kwargs :=
  { sectionKw := Option.none
    defaultKw := some (Value.vint 320)
    destKw := some "bitrate"
    typeKw := some PyType.int
    rest := [("help", "encoding bitrate")] }

def optsEx : Options :=
  { device := Option.none, remainder := [], fields := [] }

def idParse : List String → Options → Options := fun _ o => o

def remParse : List String → Options → Options :=
  fun a o => { o with remainder := a }

def envEmpty : Env :=
  { drives := [], realpath := fun s => s, pathExists := fun _ => true }

def envMiss : Env :=
  { drives := ["/dev/sr0"], realpath := fun s => s, pathExists := fun _ => false }

def envOk : Env :=
  { drives := ["/dev/sr0"], realpath := fun s => s, pathExists := fun _ => true }

/-- Once the two device guards pass, `__init__` reaches the subcommand
dispatch with the post-parse namespace. -/
theorem initNode_eq_dispatch (node : NodeSpec) (env : Env)
    (parseArgs : List String → Options → Options)
    (argv : List String) (prog_name : String) (opts : Options)
    (hnod : node.deviceOption = true → env.drives ≠ [])
    (hdev : node.deviceOption = true →
      env.pathExists ((finalOptions node env parseArgs argv opts).device.getD "") = true) :
    initNode node env parseArgs argv prog_name opts =
      dispatch node (finalOptions node env parseArgs argv opts) prog_name := by
  unfold initNode
  have h1 : (node.deviceOption && decide (env.drives = [])) = false := by
    cases h : node.deviceOption
    · simp
    · simp [hnod h]
  have h2 : (node.deviceOption &&
      !env.pathExists ((finalOptions node env parseArgs argv opts).device.getD "")) = false := by
    cases h : node.deviceOption
    · simp
    · simp [hdev h]
  simp only [h1, h2, Bool.false_eq_true, if_false]

/-- Claim C2: when the underlying operation of a task raises an error `e`,
`SyncRunner.run` raises a `TaskException` whose wrapped `exception` field is
`e` itself — the raw error never escapes the run boundary unwrapped and is
never discarded — and on success `run` returns the task's result normally,
with `verbose` affecting neither outcome. -/
theorem run_wraps_errors {ε α : Type} (e : ε) (a : α) (verbose : Bool) :
    SyncRunner.run ({ outcome := Except.error e } : Task ε α) verbose =
      Except.error { exception := e } ∧
    SyncRunner.run ({ outcome := Except.ok a } : Task ε α) verbose =
      Except.ok a :=
  ⟨rfl, rfl⟩

/-- Claim C3: a call to `add_argument_and_config` whose keyword arguments
contain no `dest` key fails with the registration-time error
`RegError.destMissing`, and no registration reaches the parser: the result
is never `Except.ok`. -/
theorem add_argument_missing_dest (config_section : Option String)
    (store : ConfigStore) (args : List String) (kwargs : Kwargs)
    (h : kwargs.destKw = Option.none) :
    add_argument_and_config config_section store args kwargs =
      Except.error RegError.destMissing ∧
    ∀ reg : AddedArg,
      add_argument_and_config config_section store args kwargs ≠ Except.ok reg := by
  unfold add_argument_and_config
  rw [h]
  exact ⟨rfl, fun reg hc => by cases hc⟩

/-- Claim C3 witness: registering `--bitrate` without a `dest` keyword
fails with `destMissing`. -/
theorem add_argument_missing_dest_witness :
    add_argument_and_config (some "encode") storeEx ["--bitrate"]
      { kwargsEx with destKw := Option.none } =
      Except.error RegError.destMissing :=
  (add_argument_missing_dest (some "encode") storeEx ["--bitrate"]
    { kwargsEx with destKw := Option.none } rfl).1

/-- Claim C4: the type-suffix passed to the config store's getter is
`"int"` for the int type, `"float"` for the float type, `"boolean"` for the
bool type, and the empty string otherwise — including when no `type`
keyword is given.  (`typesuffixFor` embeds the spec's corrected contract;
source line 172 itself is an invalid-Python stray assignment.) -/
theorem typesuffix_selection :
    typesuffixFor (some PyType.int) = "int" ∧
    typesuffixFor (some PyType.float) = "float" ∧
    typesuffixFor (some PyType.bool) = "boolean" ∧
    typesuffixFor (some PyType.str) = "" ∧
    typesuffixFor Option.none = "" :=
  ⟨rfl, rfl, rfl, rfl, rfl⟩

/-- Claim C1: an option registered through `add_argument_and_config`
resolves from exactly one source in strict precedence order — a CLI flag
present on argv wins; otherwise a config-store value for the computed
(type-suffix, section, dest) wins; otherwise the code-supplied default is
used. -/
theorem option_value_precedence (config_section : Option String)
    (store : ConfigStore) (argv : List String) (flag : String)
    (args : List String) (kwargs : Kwargs) (key : String)
    (hdest : kwargs.destKw = some key) :
    (∀ s, cliLookup argv flag = some s →
      resolvedOptionValue config_section store argv flag args kwargs =
        Except.ok (Value.vstr s)) ∧
    (∀ v, cliLookup argv flag = Option.none →
      store (typesuffixFor kwargs.typeKw) (sectionFor config_section kwargs) key =
        some v →
      resolvedOptionValue config_section store argv flag args kwargs =
        Except.ok v) ∧
    (cliLookup argv flag = Option.none →
      store (typesuffixFor kwargs.typeKw) (sectionFor config_section kwargs) key =
        Option.none →
      resolvedOptionValue config_section store argv flag args kwargs =
        Except.ok (kwargs.defaultKw.getD Value.null)) := by
  unfold resolvedOptionValue add_argument_and_config getter_or_default
  rw [hdest]
  refine ⟨fun s hs => ?_, fun v hc hv => ?_, fun hc hv => ?_⟩
  · simp only [hs]
  · simp only [hc, hv]
  · simp only [hc, hv]
    cases hd : kwargs.defaultKw <;> simp [hd, Option.getD]

/-- Claim C1 witness: the spec section 8 scenario — `--bitrate` with dest
`bitrate`, type int, code default 320, config `[encode] bitrate=192`: with
the flag on argv the flag wins; without it the config value 192 wins; in a
section with no config entry the code default 320 is used. -/
theorem option_value_precedence_witness :
    resolvedOptionValue (some "encode") storeEx ["--bitrate", "128"] "--bitrate"
      ["-b", "--bitrate"] kwargsEx = Except.ok (Value.vstr "128") ∧
    resolvedOptionValue (some "encode") storeEx [] "--bitrate"
      ["-b", "--bitrate"] kwargsEx = Except.ok (Value.vint 192) ∧
    resolvedOptionValue Option.none storeEx [] "--bitrate"
      ["-b", "--bitrate"] kwargsEx = Except.ok (Value.vint 320) :=
  ⟨(option_value_precedence (some "encode") storeEx ["--bitrate", "128"]
      "--bitrate" ["-b", "--bitrate"] kwargsEx "bitrate" rfl).1 "128" (by decide),
   (option_value_precedence (some "encode") storeEx [] "--bitrate"
      ["-b", "--bitrate"] kwargsEx "bitrate" rfl).2.1 (Value.vint 192) rfl
      (by decide),
   (option_value_precedence Option.none storeEx [] "--bitrate"
      ["-b", "--bitrate"] kwargsEx "bitrate" rfl).2.2 rfl (by decide)⟩

/-- Claim C8: the config section used for the store lookup is the explicit
`section` keyword when one is passed, else the owning command's
`config_section` when that is set, else `"main"`; and
`add_argument_and_config` performs its store lookup with exactly that
section. -/
theorem section_selection (config_section : Option String) (store : ConfigStore)
    (args : List String) (kwargs : Kwargs) (key : String)
    (hdest : kwargs.destKw = some key) :
    (∀ s, kwargs.sectionKw = some s → sectionFor config_section kwargs = s) ∧
    (∀ c, kwargs.sectionKw = Option.none → config_section = some c →
      sectionFor config_section kwargs = c) ∧
    (kwargs.sectionKw = Option.none → config_section = Option.none →
      sectionFor config_section kwargs = "main") ∧
    add_argument_and_config config_section store args kwargs =
      Except.ok
        { posArgs := args
          forwarded :=
            { kwargs with
              sectionKw := Option.none
              defaultKw := some (getter_or_default store
                (typesuffixFor kwargs.typeKw) (sectionFor config_section kwargs)
                key (kwargs.defaultKw.getD Value.null)) } } := by
  refine ⟨fun s hs => ?_, fun c hkn hcs => ?_, fun hkn hcs => ?_, ?_⟩
  · unfold sectionFor; rw [hs]
  · unfold sectionFor; rw [hkn, hcs]
  · unfold sectionFor; rw [hkn, hcs]
  · unfold add_argument_and_config
    rw [hdest]
    cases hd : kwargs.defaultKw <;> simp [hd, Option.getD]

/-- Claim C8 witness: an explicit `section="musicbrainz"` keyword overrides
the command's section; `config_section="encode"` applies when no keyword is
passed; both absent falls back to `"main"`. -/
theorem section_selection_witness :
    sectionFor (some "encode") { kwargsEx with sectionKw := some "musicbrainz" } =
      "musicbrainz" ∧
    sectionFor (some "encode") kwargsEx = "encode" ∧
    sectionFor Option.none kwargsEx = "main" :=
  ⟨(section_selection (some "encode") storeEx ["-b"]
      { kwargsEx with sectionKw := some "musicbrainz" } "bitrate" rfl).1
      "musicbrainz" rfl,
   (section_selection (some "encode") storeEx ["-b"] kwargsEx "bitrate"
      rfl).2.1 "encode" rfl rfl,
   (section_selection Option.none storeEx ["-b"] kwargsEx "bitrate"
      rfl).2.2.1 rfl rfl⟩

/-- Claim C10: a successful `add_argument_and_config` forwards the keyword
set to the parser with `section` and `default` removed, the config-resolved
effective default in the `default` slot, and every other positional and
keyword argument passed through unchanged. -/
theorem kwargs_forwarding (config_section : Option String) (store : ConfigStore)
    (args : List String) (kwargs : Kwargs) (key : String) (reg : AddedArg)
    (hdest : kwargs.destKw = some key)
    (hok : add_argument_and_config config_section store args kwargs =
      Except.ok reg) :
    reg.posArgs = args ∧
    reg.forwarded.sectionKw = Option.none ∧
    reg.forwarded.defaultKw =
      some (getter_or_default store (typesuffixFor kwargs.typeKw)
        (sectionFor config_section kwargs) key (kwargs.defaultKw.getD Value.null)) ∧
    reg.forwarded.destKw = kwargs.destKw ∧
    reg.forwarded.typeKw = kwargs.typeKw ∧
    reg.forwarded.rest = kwargs.rest := by
  unfold add_argument_and_config at hok
  rw [hdest] at hok
  simp only [Except.ok.injEq] at hok
  subst hok
  refine ⟨rfl, rfl, ?_, hdest.symm ▸ rfl, rfl, rfl⟩
  cases hd : kwargs.defaultKw <;> simp [hd, Option.getD]

/-- The concrete registration produced by the spec section 8 scenario. -/
def regEx : AddedArg :=
  { posArgs := ["-b", "--bitrate"]
    forwarded :=
      { sectionKw := Option.none
        defaultKw := some (Value.vint 192)
        destKw := some "bitrate"
        typeKw := some PyType.int
        rest := [("help", "encoding bitrate")] } }

/-- Claim C10 witness: registering `--bitrate` in section `encode` forwards
the flag strings, dest, type and help text unchanged, with no `section`
keyword and the config value 192 as the parser default. -/
theorem kwargs_forwarding_witness :
    regEx.posArgs = ["-b", "--bitrate"] ∧
    regEx.forwarded.sectionKw = Option.none ∧
    regEx.forwarded.defaultKw =
      some (getter_or_default storeEx (typesuffixFor kwargsEx.typeKw)
        (sectionFor (some "encode") kwargsEx) "bitrate"
        (kwargsEx.defaultKw.getD Value.null)) ∧
    regEx.forwarded.destKw = kwargsEx.destKw ∧
    regEx.forwarded.typeKw = kwargsEx.typeKw ∧
    regEx.forwarded.rest = kwargsEx.rest :=
  kwargs_forwarding (some "encode") storeEx ["-b", "--bitrate"] kwargsEx
    "bitrate" regEx rfl (by
      unfold add_argument_and_config
      simp [kwargsEx, regEx, getter_or_default, storeEx, sectionFor, typesuffixFor])

/-- Claim C5: with `device_option` set and zero enumerated devices,
`__init__` logs critically and aborts with the distinct `noDrives` status,
and — because this happens before `parse_args` — the shared options
namespace it reports is the untouched input namespace, whatever the parser
would have done. -/
theorem no_drives_abort (node : NodeSpec) (env : Env)
    (parseArgs : List String → Options → Options)
    (argv : List String) (prog_name : String) (opts : Options)
    (hdev : node.deviceOption = true) (hdrives : env.drives = []) :
    initNode node env parseArgs argv prog_name opts =
      InitResult.stop InitStop.noDrives opts ∧
    InitStop.noDrives.logsCritical = true ∧
    (∀ p, InitStop.noDrives ≠ InitStop.deviceNotFound p) ∧
    InitStop.noDrives ≠ InitStop.helpExit ∧
    (∀ t, InitStop.noDrives ≠ InitStop.unknownSubcommand t) := by
  refine ⟨?_, rfl, ?_, ?_, ?_⟩
  · unfold initNode
    simp [hdev, hdrives]
  · intro p h
    cases h
  · intro h
    cases h
  · intro t h
    cases h

/-- Claim C5 witness: a device command with no drives enumerated stops with
`noDrives` and leaves the namespace exactly as given, even though argv
holds a parseable `-d` flag. -/
theorem no_drives_abort_witness :
    initNode { deviceOption := true, subcommands := Option.none } envEmpty
      idParse ["-d", "/dev/sr0"] "whipper" optsEx =
      InitResult.stop InitStop.noDrives optsEx :=
  (no_drives_abort { deviceOption := true, subcommands := Option.none } envEmpty
    idParse ["-d", "/dev/sr0"] "whipper" optsEx rfl rfl).1

/-- Claim C9: with `device_option` set, after parsing the chosen device
path is resolved through symlinks (`os.path.realpath`), and when the
resolved path does not exist the invocation aborts with the
`deviceNotFound` status, which is distinct from the `noDrives` status. -/
theorem device_missing_abort (node : NodeSpec) (env : Env)
    (parseArgs : List String → Options → Options)
    (argv : List String) (prog_name : String) (opts : Options)
    (hdev : node.deviceOption = true) (hdrives : env.drives ≠ [])
    (hmiss : env.pathExists
      (resolvedDevice env (parsedOptions node env parseArgs argv opts)) = false) :
    initNode node env parseArgs argv prog_name opts =
      InitResult.stop
        (InitStop.deviceNotFound
          (resolvedDevice env (parsedOptions node env parseArgs argv opts)))
        (finalOptions node env parseArgs argv opts) ∧
    resolvedDevice env (parsedOptions node env parseArgs argv opts) =
      env.realpath ((parsedOptions node env parseArgs argv opts).device.getD "") ∧
    (∀ p, InitStop.deviceNotFound p ≠ InitStop.noDrives) ∧
    (∀ p, (InitStop.deviceNotFound p).signal ≠ InitStop.noDrives.signal) := by
  refine ⟨?_, rfl, ?_, ?_⟩
  · unfold initNode
    simp [finalOptions, hdev, hdrives, hmiss]
  · intro p h
    cases h
  · intro p h
    simp only [InitStop.signal, AbortSignal.ioError.injEq] at h
    have h4 := congrArg String.length h
    rw [String.length_append, String.length_append] at h4
    have e1 : "CD-DA device ".length = 13 := rfl
    have e2 : " not found!".length = 11 := rfl
    have e3 : "No CD-DA drives found!".length = 22 := rfl
    rw [e1, e2, e3] at h4
    omega

/-- Claim C9 witness: the enumerated drive `/dev/sr0` resolves to itself
and does not exist, so construction stops with `deviceNotFound "/dev/sr0"`
carrying the resolved path in the namespace. -/
theorem device_missing_abort_witness :
    initNode { deviceOption := true, subcommands := Option.none } envMiss
      idParse [] "whipper" optsEx =
      InitResult.stop (InitStop.deviceNotFound "/dev/sr0")
        { device := some "/dev/sr0", remainder := [], fields := [] } :=
  (device_missing_abort { deviceOption := true, subcommands := Option.none }
    envMiss idParse [] "whipper" optsEx rfl (by decide) rfl).1

/-- Claim C6: a command owning subcommands whose parsed remainder is empty
prints its help text and exits with the success status 0, and no child
command is constructed. -/
theorem empty_remainder_help (node : NodeSpec) (env : Env)
    (parseArgs : List String → Options → Options)
    (argv : List String) (prog_name : String) (opts : Options)
    (subs : List String)
    (hsub : node.subcommands = some subs)
    (hnod : node.deviceOption = true → env.drives ≠ [])
    (hdev : node.deviceOption = true →
      env.pathExists
        ((finalOptions node env parseArgs argv opts).device.getD "") = true)
    (hrem : (finalOptions node env parseArgs argv opts).remainder = []) :
    initNode node env parseArgs argv prog_name opts =
      InitResult.stop InitStop.helpExit
        (finalOptions node env parseArgs argv opts) ∧
    InitStop.helpExit.printsHelp = true ∧
    InitStop.helpExit.signal = AbortSignal.exitCode 0 ∧
    (∀ name cargv cprog copts,
      initNode node env parseArgs argv prog_name opts ≠
        InitResult.child name cargv cprog copts) := by
  have hd := initNode_eq_dispatch node env parseArgs argv prog_name opts hnod hdev
  refine ⟨?_, rfl, rfl, ?_⟩
  · rw [hd]; simp [dispatch, hsub, hrem]
  · intro name cargv cprog copts h
    rw [hd] at h
    simp [dispatch, hsub, hrem] at h

/-- Claim C6 witness: a dispatcher with subcommands `cd` and `offset`,
given an empty remainder, stops with `helpExit` and constructs no child. -/
theorem empty_remainder_help_witness :
    initNode { deviceOption := false, subcommands := some ["cd", "offset"] }
      envOk remParse [] "whipper" optsEx =
      InitResult.stop InitStop.helpExit optsEx :=
  (empty_remainder_help { deviceOption := false, subcommands := some ["cd", "offset"] }
    envOk remParse [] "whipper" optsEx ["cd", "offset"] rfl
    (fun h => nomatch h) (fun h => nomatch h) rfl).1

/-- Claim C7: a command owning subcommands whose remainder's first token is
not a registered subcommand name logs critically and exits with the
distinct failure status 1 constructing no child; with a registered first
token it constructs the matching child with the remainder tail, the
program name extended by a space and the chosen name, and the shared
post-parse namespace. -/
theorem subcommand_dispatch (node : NodeSpec) (env : Env)
    (parseArgs : List String → Options → Options)
    (argv : List String) (prog_name : String) (opts : Options)
    (subs : List String) (tok : String) (tailArgs : List String)
    (hsub : node.subcommands = some subs)
    (hnod : node.deviceOption = true → env.drives ≠ [])
    (hdev : node.deviceOption = true →
      env.pathExists
        ((finalOptions node env parseArgs argv opts).device.getD "") = true)
    (hrem : (finalOptions node env parseArgs argv opts).remainder =
      tok :: tailArgs) :
    (tok ∉ subs →
      initNode node env parseArgs argv prog_name opts =
        InitResult.stop (InitStop.unknownSubcommand tok)
          (finalOptions node env parseArgs argv opts) ∧
      (InitStop.unknownSubcommand tok).signal = AbortSignal.exitCode 1 ∧
      (InitStop.unknownSubcommand tok).signal ≠ InitStop.helpExit.signal ∧
      (InitStop.unknownSubcommand tok).logsCritical = true ∧
      (∀ name cargv cprog copts,
        initNode node env parseArgs argv prog_name opts ≠
          InitResult.child name cargv cprog copts)) ∧
    (tok ∈ subs →
      initNode node env parseArgs argv prog_name opts =
        InitResult.child tok tailArgs (prog_name ++ " " ++ tok)
          (finalOptions node env parseArgs argv opts)) := by
  have hd := initNode_eq_dispatch node env parseArgs argv prog_name opts hnod hdev
  constructor
  · intro hmem
    refine ⟨?_, rfl, ?_, rfl, ?_⟩
    · rw [hd]; simp [dispatch, hsub, hrem, hmem]
    · intro h
      cases h
    · intro name cargv cprog copts h
      rw [hd] at h
      simp [dispatch, hsub, hrem, hmem] at h
  · intro hmem
    rw [hd]; simp [dispatch, hsub, hrem, hmem]

/-- Claim C7 witness: with subcommands `cd` and `offset`, the unregistered
token `rip` stops with `unknownSubcommand "rip"`, while the registered
token `cd` constructs the child `cd` with the remainder tail, program name
`whipper cd`, and the shared namespace. -/
theorem subcommand_dispatch_witness :
    initNode { deviceOption := false, subcommands := some ["cd", "offset"] }
      envOk remParse ["rip", "x"] "whipper" optsEx =
      InitResult.stop (InitStop.unknownSubcommand "rip")
        { device := Option.none, remainder := ["rip", "x"], fields := [] } ∧
    initNode { deviceOption := false, subcommands := some ["cd", "offset"] }
      envOk remParse ["cd", "info"] "whipper" optsEx =
      InitResult.child "cd" ["info"] "whipper cd"
        { device := Option.none, remainder := ["cd", "info"], fields := [] } :=
  ⟨((subcommand_dispatch
      { deviceOption := false, subcommands := some ["cd", "offset"] }
      envOk remParse ["rip", "x"] "whipper" optsEx ["cd", "offset"] "rip" ["x"]
      rfl (fun h => nomatch h) (fun h => nomatch h) rfl).1 (by decide)).1,
   (subcommand_dispatch
      { deviceOption := false, subcommands := some ["cd", "offset"] }
      envOk remParse ["cd", "info"] "whipper" optsEx ["cd", "offset"] "cd" ["info"]
      rfl (fun h => nomatch h) (fun h => nomatch h) rfl).2 (by decide)⟩

end Whipper
